import Mathlib

/-!
Verification of the `brother-label` user-space label-printer driver.

This file shallowly embeds the parts of the implementation that the
specification's claims are about:

* the TIFF PackBits run-length compression used for raster lines
  (`packbits_encode` / `packbits_decode`);
* the model / label catalog (`ALL_MODELS`, the per-family label lists);
* the raster command encoder state machine and the per-page emission
  sequence of `Spool.render` (`spool_render_page`, `prologue`);
* the render-pipeline page geometry of `Renderer._render_page`;
* the text renderer's page-size computation;
* the fuzzy identifier lookup of the CLI (`_normalise`, `_fuzzy_match`,
  including a faithful model of `difflib.get_close_matches`);
* the PyUSB device-URL parsing and device matching;
* the truthiness of `LabelMetadata.__bool__`.

Python integers become `Nat`/`Int`; Python floats are modelled by `ℚ`
(the float computations involved stay far away from rounding boundaries);
fallible code returns `Except`.  The raster command module (`raster.py`)
and the reader (`reader.py`) are not part of the source tree; where a
definition models one of their operations it is marked
`Modelled from the spec:` in its doc comment.
-/

namespace BrotherLabel

/-! ## Generic byte-list helpers -/

/-- Little-endian 16-bit encoding of a number, as two bytes. -/
def le16 (n : ℕ) : List ℕ := [n % 256, n / 256 % 256]

/-- Little-endian 32-bit encoding of a number, as four bytes. -/
def le32 (n : ℕ) : List ℕ :=
  [n % 256, n / 256 % 256, n / 65536 % 256, n / 16777216 % 256]

/-- Whether `l` starts with the pattern `pat`. -/
def startsWithSeq : List ℕ → List ℕ → Bool
  | [], _ => true
  | _ :: _, [] => false
  | p :: ps, x :: xs => p == x && startsWithSeq ps xs

/-- Whether the pattern `pat` occurs contiguously anywhere inside `l`. -/
def containsSeq (pat : List ℕ) : List ℕ → Bool
  | [] => pat.isEmpty
  | x :: xs => startsWithSeq pat (x :: xs) || containsSeq pat xs

/-! ## PackBits compression (§4.2.1 of the spec)

`raster.py` (the raster command encoder) is not part of the source tree,
so the compressor is modelled from the spec: "walk the bytes
left-to-right; emit runs of length n≥2 of identical bytes as a control
byte (257−n, i.e. negative run) followed by the repeated byte; emit
literal spans of length n≥1 as (n−1) followed by the literal bytes;
never exceed 128 bytes per run". -/

/-- Length of the run of bytes equal to `b` at the head of the list. -/
def runLen (b : ℕ) : List ℕ → ℕ
  | [] => 0
  | x :: xs => if x = b then runLen b xs + 1 else 0

/-- Length of the maximal literal span at the head of the list: bytes are
taken until a run of two identical bytes starts (the run is then emitted
as a run block, not as part of the literal). -/
def litLen : List ℕ → ℕ
  | [] => 0
  | [_] => 1
  | x :: y :: xs => if x = y then 0 else litLen (y :: xs) + 1

/-- Modelled from the spec: the PackBits encoder of §4.2.1 (the raster
encoder module `raster.py` is absent from the source tree).  Runs of
`n ≥ 2` identical bytes become `(257 − n) :: b`, literal spans of `n ≥ 1`
bytes become `(n − 1) ::` the bytes, and no run or literal span exceeds
128 bytes. -/
def packbits_encode : List ℕ → List ℕ
  | [] => []
  | b :: rest =>
    let n := min (runLen b rest + 1) 128
    if 2 ≤ n then
      (257 - n) :: b :: packbits_encode (rest.drop (n - 1))
    else
      let m := min (litLen (b :: rest)) 128
      (m - 1) :: ((b :: rest).take m ++ packbits_encode (rest.drop (m - 1)))
termination_by l => l.length
decreasing_by
  · simp [List.length_drop]; omega
  · simp [List.length_drop]; omega

/-- Modelled from the spec: the PackBits decoder mirroring §4.2.1 (used by
the absent reader module for "decompression mirrors §4.2.1").  A control
byte `c ≤ 127` copies the next `c + 1` bytes literally, `c ≥ 129` repeats
the following byte `257 − c` times, and `c = 128` is a no-op. -/
def packbits_decode : List ℕ → List ℕ
  | [] => []
  | c :: rest =>
    if c ≤ 127 then
      rest.take (c + 1) ++ packbits_decode (rest.drop (c + 1))
    else if c = 128 then
      packbits_decode rest
    else
      match rest with
      | [] => []
      | b :: rest' => List.replicate (257 - c) b ++ packbits_decode rest'
termination_by l => l.length
decreasing_by
  all_goals simp [List.length_drop]
  all_goals omega

/-! ## Label and model catalog (`labels.py`, `models.py`) -/

/-- Form factor of a label (`labels.FormFactor`). -/
inductive FormFactor where
  | DIE_CUT
  | ENDLESS
  | ROUND_DIE_CUT
  | PTOUCH_ENDLESS
deriving DecidableEq, Repr

/-- Printable colours of a label (`labels.Color`). -/
inductive Color where
  | BLACK_WHITE
  | BLACK_RED_WHITE
deriving DecidableEq, Repr

/-- A label / media type (`labels.Label`). -/
structure Label where
  identifiers : List String
  tape_size : ℕ × ℕ
  form_factor : FormFactor
  dots_total : ℕ × ℕ
  dots_printable : ℕ × ℕ
  offset_r : ℤ
  feed_margin : ℕ := 0
  color : Color := Color.BLACK_WHITE
deriving DecidableEq, Repr

/-- The model families (the `ModelQL`/`ModelQL10`/`ModelQL11`/`ModelPT`/
`ModelPTE` subclass hierarchy of `models.py`). -/
inductive Family where
  | QL
  | QL10
  | QL11
  | PT
  | PTE
deriving DecidableEq, Repr

/-- A printer model (`models.Model`); the subclass used in `models.py` is
recorded in the `family` field. -/
structure Model where
  name : String
  min_max_length_dots : ℕ × ℕ
  family : Family
  usb_product_id : ℕ := 0x0000
  usb_vendor_id : ℕ := 0x04F9
  min_max_feed : ℕ × ℕ := (35, 100)
  number_bytes_per_row : ℕ := 90
  additional_offset_r : ℤ := 0
  supports_mode_setting : Bool := true
  supports_cutting : Bool := true
  supports_expanded_mode : Bool := true
  supports_compression : Bool := true
  supports_two_color : Bool := false
  num_invalidate_bytes : ℕ := 200
deriving DecidableEq, Repr

/-- The label `"62"` (`DK-22205` etc.) of the QL family. -/
def label_62 : Label :=
  { identifiers := ["62", "DK-22205", "DK-44205", "DK-44605"],
    tape_size := (62, 0), form_factor := FormFactor.ENDLESS,
    dots_total := (732, 0), dots_printable := (696, 0), offset_r := 12,
    feed_margin := 35 }

/-- Labels available on the QL family (`ModelQL.labels`). -/
def labels_ql : List Label := [
  { identifiers := ["12", "DK-22214"], tape_size := (12, 0),
    form_factor := FormFactor.ENDLESS, dots_total := (142, 0),
    dots_printable := (106, 0), offset_r := 29, feed_margin := 35 },
  { identifiers := ["18"], tape_size := (18, 0),
    form_factor := FormFactor.ENDLESS, dots_total := (256, 0),
    dots_printable := (234, 0), offset_r := 171, feed_margin := 14 },
  { identifiers := ["29", "DK-22210"], tape_size := (29, 0),
    form_factor := FormFactor.ENDLESS, dots_total := (342, 0),
    dots_printable := (306, 0), offset_r := 6, feed_margin := 35 },
  { identifiers := ["38", "DK-22225"], tape_size := (38, 0),
    form_factor := FormFactor.ENDLESS, dots_total := (449, 0),
    dots_printable := (413, 0), offset_r := 12, feed_margin := 35 },
  { identifiers := ["50", "DK-22223"], tape_size := (50, 0),
    form_factor := FormFactor.ENDLESS, dots_total := (590, 0),
    dots_printable := (554, 0), offset_r := 12, feed_margin := 35 },
  { identifiers := ["54", "DK-N55224"], tape_size := (54, 0),
    form_factor := FormFactor.ENDLESS, dots_total := (636, 0),
    dots_printable := (590, 0), offset_r := 0, feed_margin := 35 },
  label_62,
  { identifiers := ["62red", "DK-22251"], tape_size := (62, 0),
    form_factor := FormFactor.ENDLESS, dots_total := (732, 0),
    dots_printable := (696, 0), offset_r := 12, feed_margin := 35,
    color := Color.BLACK_RED_WHITE },
  { identifiers := ["17x54", "DK-11204"], tape_size := (17, 54),
    form_factor := FormFactor.DIE_CUT, dots_total := (201, 636),
    dots_printable := (165, 566), offset_r := 0 },
  { identifiers := ["17x87", "DK-11203"], tape_size := (17, 87),
    form_factor := FormFactor.DIE_CUT, dots_total := (201, 1026),
    dots_printable := (165, 956), offset_r := 0 },
  { identifiers := ["23x23", "DK-11221"], tape_size := (23, 23),
    form_factor := FormFactor.DIE_CUT, dots_total := (272, 272),
    dots_printable := (202, 202), offset_r := 42 },
  { identifiers := ["29x42"], tape_size := (29, 42),
    form_factor := FormFactor.DIE_CUT, dots_total := (342, 495),
    dots_printable := (306, 425), offset_r := 6 },
  { identifiers := ["29x90", "DK-11201"], tape_size := (29, 90),
    form_factor := FormFactor.DIE_CUT, dots_total := (342, 1061),
    dots_printable := (306, 991), offset_r := 6 },
  { identifiers := ["39x90", "DK-11208"], tape_size := (38, 90),
    form_factor := FormFactor.DIE_CUT, dots_total := (449, 1061),
    dots_printable := (413, 991), offset_r := 12 },
  { identifiers := ["39x48"], tape_size := (39, 48),
    form_factor := FormFactor.DIE_CUT, dots_total := (461, 565),
    dots_printable := (425, 495), offset_r := 6 },
  { identifiers := ["52x29"], tape_size := (52, 29),
    form_factor := FormFactor.DIE_CUT, dots_total := (614, 341),
    dots_printable := (578, 271), offset_r := 0 },
  { identifiers := ["54x29"], tape_size := (54, 29),
    form_factor := FormFactor.DIE_CUT, dots_total := (630, 341),
    dots_printable := (598, 271), offset_r := 60 },
  { identifiers := ["60x86", "DK-11234", "DK-12343PK"], tape_size := (60, 87),
    form_factor := FormFactor.DIE_CUT, dots_total := (708, 1024),
    dots_printable := (672, 954), offset_r := 18 },
  { identifiers := ["62x29", "DK-11209"], tape_size := (62, 29),
    form_factor := FormFactor.DIE_CUT, dots_total := (732, 341),
    dots_printable := (696, 271), offset_r := 12 },
  { identifiers := ["62x100", "DK-11202"], tape_size := (62, 100),
    form_factor := FormFactor.DIE_CUT, dots_total := (732, 1179),
    dots_printable := (696, 1109), offset_r := 12 },
  { identifiers := ["d12", "DK-11219"], tape_size := (12, 12),
    form_factor := FormFactor.ROUND_DIE_CUT, dots_total := (142, 142),
    dots_printable := (94, 94), offset_r := 113, feed_margin := 35 },
  { identifiers := ["d24", "DK-11218"], tape_size := (24, 24),
    form_factor := FormFactor.ROUND_DIE_CUT, dots_total := (284, 284),
    dots_printable := (236, 236), offset_r := 42 },
  { identifiers := ["d58", "DK-11207"], tape_size := (58, 58),
    form_factor := FormFactor.ROUND_DIE_CUT, dots_total := (688, 688),
    dots_printable := (618, 618), offset_r := 51 }
]

/-- Labels available on the QL10 family (`ModelQL10.labels`, stacking on
the QL labels). -/
def labels_ql10 : List Label := labels_ql ++ [
  { identifiers := ["102", "DK-22243"], tape_size := (102, 0),
    form_factor := FormFactor.ENDLESS, dots_total := (1200, 0),
    dots_printable := (1164, 0), offset_r := 12, feed_margin := 35 },
  { identifiers := ["104"], tape_size := (104, 0),
    form_factor := FormFactor.ENDLESS, dots_total := (1227, 0),
    dots_printable := (1200, 0), offset_r := -8, feed_margin := 35 },
  { identifiers := ["102x51", "DK-11240"], tape_size := (102, 51),
    form_factor := FormFactor.DIE_CUT, dots_total := (1200, 596),
    dots_printable := (1164, 526), offset_r := 12 },
  { identifiers := ["102x152", "DK-11241"], tape_size := (102, 153),
    form_factor := FormFactor.DIE_CUT, dots_total := (1200, 1804),
    dots_printable := (1164, 1660), offset_r := 12 }
]

/-- Labels available on the QL11 family (`ModelQL11.labels`, stacking on
the QL10 labels). -/
def labels_ql11 : List Label := labels_ql10 ++ [
  { identifiers := ["103", "DK-22246"], tape_size := (104, 0),
    form_factor := FormFactor.ENDLESS, dots_total := (1224, 0),
    dots_printable := (1200, 0), offset_r := 12, feed_margin := 35 },
  { identifiers := ["103x164", "DK-11247"], tape_size := (104, 164),
    form_factor := FormFactor.DIE_CUT, dots_total := (1224, 1941),
    dots_printable := (1200, 1822), offset_r := 12 }
]

/-- Labels available on the PT family (`ModelPT.labels`). -/
def labels_pt : List Label := [
  { identifiers := ["12", "pt12"], tape_size := (12, 0),
    form_factor := FormFactor.PTOUCH_ENDLESS, dots_total := (170, 0),
    dots_printable := (150, 0), offset_r := 213, feed_margin := 14 },
  { identifiers := ["18", "pt18"], tape_size := (18, 0),
    form_factor := FormFactor.PTOUCH_ENDLESS, dots_total := (256, 0),
    dots_printable := (234, 0), offset_r := 171, feed_margin := 14 },
  { identifiers := ["24", "pt24"], tape_size := (24, 0),
    form_factor := FormFactor.PTOUCH_ENDLESS, dots_total := (128, 0),
    dots_printable := (128, 0), offset_r := 0, feed_margin := 14 },
  { identifiers := ["36", "pt36"], tape_size := (36, 0),
    form_factor := FormFactor.PTOUCH_ENDLESS, dots_total := (512, 0),
    dots_printable := (454, 0), offset_r := 61, feed_margin := 14 }
]

/-- Labels available on the PTE family (`ModelPTE.labels`). -/
def labels_pte : List Label := [
  { identifiers := ["6", "pte6"], tape_size := (6, 0),
    form_factor := FormFactor.PTOUCH_ENDLESS, dots_total := (42, 0),
    dots_printable := (32, 0), offset_r := 48, feed_margin := 14 },
  { identifiers := ["9", "pte9"], tape_size := (9, 0),
    form_factor := FormFactor.PTOUCH_ENDLESS, dots_total := (64, 0),
    dots_printable := (50, 0), offset_r := 39, feed_margin := 14 },
  { identifiers := ["12", "pte12"], tape_size := (12, 0),
    form_factor := FormFactor.PTOUCH_ENDLESS, dots_total := (84, 0),
    dots_printable := (70, 0), offset_r := 29, feed_margin := 14 },
  { identifiers := ["18", "pte18"], tape_size := (18, 0),
    form_factor := FormFactor.PTOUCH_ENDLESS, dots_total := (128, 0),
    dots_printable := (112, 0), offset_r := 8, feed_margin := 14 },
  { identifiers := ["24", "pte24"], tape_size := (24, 0),
    form_factor := FormFactor.PTOUCH_ENDLESS, dots_total := (170, 0),
    dots_printable := (128, 0), offset_r := 0, feed_margin := 14 }
]

/-- The list of labels supported by a model, determined by its family
(the `labels` property of the `Model` subclasses). -/
def Model.labels (m : Model) : List Label :=
  match m.family with
  | Family.QL => labels_ql
  | Family.QL10 => labels_ql10
  | Family.QL11 => labels_ql11
  | Family.PT => labels_pt
  | Family.PTE => labels_pte

/-- The QL-500 model (no compression, mode setting, expanded mode or
cutting support). -/
def ql_500 : Model :=
  { name := "QL-500", min_max_length_dots := (295, 11811), family := Family.QL,
    supports_compression := false, supports_mode_setting := false,
    supports_expanded_mode := false, supports_cutting := false,
    usb_product_id := 0x2015 }

/-- The QL-600 model (all default capability flags). -/
def ql_600 : Model :=
  { name := "QL-600", min_max_length_dots := (150, 11811),
    family := Family.QL, usb_product_id := 0x20C0 }

/-- The full model catalog (`models.ALL_MODELS`). -/
def ALL_MODELS : List Model := [
  ql_500,
  { name := "QL-550", min_max_length_dots := (295, 11811), family := Family.QL,
    supports_compression := false, supports_mode_setting := false,
    usb_product_id := 0x2016 },
  { name := "QL-560", min_max_length_dots := (295, 11811), family := Family.QL,
    supports_compression := false, supports_mode_setting := false,
    usb_product_id := 0x2027 },
  { name := "QL-570", min_max_length_dots := (150, 11811), family := Family.QL,
    supports_compression := false, supports_mode_setting := false,
    usb_product_id := 0x2028 },
  { name := "QL-580N", min_max_length_dots := (150, 11811),
    family := Family.QL, usb_product_id := 0x2029 },
  ql_600,
  { name := "QL-650TD", min_max_length_dots := (295, 11811),
    family := Family.QL, usb_product_id := 0x201B },
  { name := "QL-700", min_max_length_dots := (150, 11811), family := Family.QL,
    supports_compression := false, supports_mode_setting := false,
    usb_product_id := 0x2042 },
  { name := "QL-710W", min_max_length_dots := (150, 11811),
    family := Family.QL, usb_product_id := 0x2043 },
  { name := "QL-720NW", min_max_length_dots := (150, 11811),
    family := Family.QL, usb_product_id := 0x2044 },
  { name := "QL-800", min_max_length_dots := (150, 11811), family := Family.QL,
    supports_two_color := true, supports_compression := false,
    num_invalidate_bytes := 400, usb_product_id := 0x209B },
  { name := "QL-810W", min_max_length_dots := (150, 11811),
    family := Family.QL, supports_two_color := true,
    num_invalidate_bytes := 400, usb_product_id := 0x209C },
  { name := "QL-820NWB", min_max_length_dots := (150, 11811),
    family := Family.QL, supports_two_color := true,
    num_invalidate_bytes := 400, usb_product_id := 0x209D },
  { name := "QL-1050", min_max_length_dots := (295, 35433),
    family := Family.QL10, number_bytes_per_row := 162,
    additional_offset_r := 44, usb_product_id := 0x2020 },
  { name := "QL-1060N", min_max_length_dots := (295, 35433),
    family := Family.QL10, number_bytes_per_row := 162,
    additional_offset_r := 44, usb_product_id := 0x202A },
  { name := "QL-1100", min_max_length_dots := (301, 35434),
    family := Family.QL11, number_bytes_per_row := 162,
    additional_offset_r := 44, usb_product_id := 0x20A7 },
  { name := "QL-1100NWB", min_max_length_dots := (301, 35434),
    family := Family.QL11, number_bytes_per_row := 162,
    additional_offset_r := 44, usb_product_id := 0x20A8 },
  { name := "QL-1115NWB", min_max_length_dots := (301, 35434),
    family := Family.QL11, number_bytes_per_row := 162,
    additional_offset_r := 44, usb_product_id := 0x20AC },
  { name := "PT-P750W", min_max_length_dots := (31, 14172),
    family := Family.PT, number_bytes_per_row := 16 },
  { name := "PT-P900W", min_max_length_dots := (57, 28346),
    family := Family.PT, number_bytes_per_row := 70 },
  { name := "PT-P950NW", min_max_length_dots := (57, 28346),
    family := Family.PT, number_bytes_per_row := 70 },
  { name := "PT-E550W", min_max_length_dots := (31, 14172),
    family := Family.PTE, number_bytes_per_row := 16,
    usb_product_id := 0x2060 }
]

/-! ## Raster command encoder and `Spool` emission

The exception hierarchy mirrors `exceptions.py`.  The raster command
module (`raster.py`) is absent from the source tree; its opcodes are
modelled from the spec (§4.2), with byte layouts following the spec's
field lists and scenario S1.  The composition of the opcodes — the job
prolog of `Spool.__enter__` and the per-page sequence of `Spool.render` —
is taken from `spool.py`, which is part of the source tree. -/

/-- Exception classes of `exceptions.py`.  `BrotherQLError` is the base
class; the others are its direct subclasses. -/
inductive ExcClass where
  | BrotherQLError
  | BrotherQLUnknownId
  | BrotherQLUnsupportedCmd
  | BrotherQLUnknownModel
  | BrotherQLRasterError
deriving DecidableEq, Repr

/-- Accumulating state of the raster command encoder: the byte sink plus
the mode flags that `Spool.render` sets between opcode emissions. -/
structure RasterState where
  data : List ℕ := []
  mtype : ℕ := 0
  mwidth : ℕ := 0
  mlength : ℕ := 0
  pquality : ℕ := 1
  page_number : ℕ := 0
  dpi_600 : Bool := false
  cut_at_end : Bool := false
  two_color_printing : Bool := false
  compression : Bool := false
deriving DecidableEq, Repr

/-- Modelled from the spec: the byte sequence of the optional
`switch_mode` opcode.  The spec gives the opcode no byte layout; it is
modelled as a fixed non-empty four-byte escape sequence.  Every claim
proved below about emission order depends only on this sequence being
non-empty and NUL-free. -/
def switch_mode_opcode : List ℕ := [0x1B, 0x69, 0x61, 0x01]

/-- Modelled from the spec: `switch_mode`, gated on
`supports_mode_setting` (§4.2.2: "Every optional opcode consults the
Model's flag"). -/
def add_switch_mode (m : Model) (st : RasterState) :
    Except ExcClass RasterState :=
  if m.supports_mode_setting then
    Except.ok { st with data := st.data ++ switch_mode_opcode }
  else
    Except.error ExcClass.BrotherQLUnsupportedCmd

/-- Modelled from the spec: `invalidate` emits
`num_invalidate_bytes`-many NUL bytes (§4.2 step 1). -/
def add_invalidate (m : Model) (st : RasterState) : RasterState :=
  { st with data := st.data ++ List.replicate m.num_invalidate_bytes 0x00 }

/-- Modelled from the spec: the `initialize` command of the prolog
(`add_initialize` in the raster module) emits the initialize magic, whose
bytes are `1B 40` by scenario S1. -/
def add_init_magic (st : RasterState) : RasterState :=
  { st with data := st.data ++ [0x1B, 0x40], page_number := 0 }

/-- Modelled from the spec: `status_information_request` (§4.2 step 2a);
byte values are not claim-relevant. -/
def add_status_information (st : RasterState) : RasterState :=
  { st with data := st.data ++ [0x1B, 0x69, 0x53] }

/-- Modelled from the spec: `media_and_quality` "encodes media type
(0x0A endless, 0x0B die-cut, 0x00 P-touch endless), width in mm, length
in mm (0 for endless), raster line count (little-endian 32-bit), quality
bit, first-page flag" (§4.2 step 2b). -/
def add_media_and_quality (raster_lines : ℕ) (st : RasterState) :
    RasterState :=
  { st with
    data := st.data ++ [0x1B, 0x69, 0x7A, st.mtype, st.mwidth, st.mlength]
      ++ le32 raster_lines
      ++ [st.pquality, if st.page_number = 0 then 0 else 1] }

/-- Modelled from the spec: the `autocut` flag opcode, gated on
`supports_cutting` (§4.2 step 2c). -/
def add_autocut (m : Model) (cut : Bool) (st : RasterState) :
    Except ExcClass RasterState :=
  if m.supports_cutting then
    Except.ok
      { st with data := st.data ++ [0x1B, 0x69, 0x4D, if cut then 0x40 else 0] }
  else
    Except.error ExcClass.BrotherQLUnsupportedCmd

/-- Modelled from the spec: `cut_every(n)`, gated on `supports_cutting`
(§4.2 step 2c). -/
def add_cut_every (m : Model) (n : ℕ) (st : RasterState) :
    Except ExcClass RasterState :=
  if m.supports_cutting then
    Except.ok { st with data := st.data ++ [0x1B, 0x69, 0x41, n % 256] }
  else
    Except.error ExcClass.BrotherQLUnsupportedCmd

/-- Modelled from the spec: the `expanded_mode` byte "packs dpi_600,
cut_at_end, two_color bits", gated on `supports_expanded_mode`
(§4.2 step 2d). -/
def add_expanded_mode (m : Model) (st : RasterState) :
    Except ExcClass RasterState :=
  if m.supports_expanded_mode then
    Except.ok
      { st with data := st.data ++ [0x1B, 0x69, 0x4B,
          (if st.dpi_600 then 0x40 else 0) + (if st.cut_at_end then 0x08 else 0)
            + (if st.two_color_printing then 0x01 else 0)] }
  else
    Except.error ExcClass.BrotherQLUnsupportedCmd

/-- Modelled from the spec: `margins(feed_dots)` — "a little-endian
16-bit feed amount" (§4.2 step 2e). -/
def add_margins (feed : ℕ) (st : RasterState) : RasterState :=
  { st with data := st.data ++ [0x1B, 0x69, 0x64] ++ le16 feed }

/-- Modelled from the spec: `compression_mode(on)`, gated on
`supports_compression` (§4.2 step 2f). -/
def add_compression (m : Model) (enable : Bool) (st : RasterState) :
    Except ExcClass RasterState :=
  if m.supports_compression then
    Except.ok { st with
      data := st.data ++ [0x4D, if enable then 0x02 else 0x00],
      compression := enable }
  else
    Except.error ExcClass.BrotherQLUnsupportedCmd

/-- Byte sequence of one raster line: the raster-line opcode, the payload
length as a 16-bit little-endian field, and the payload — compressed with
PackBits when compression is on (§4.2 step 2g; the `0x67` opcode byte and
the length field match `tests/test_reader.py`). -/
def raster_line_bytes (compression : Bool) (row : List ℕ) : List ℕ :=
  let payload := if compression then packbits_encode row else row
  0x67 :: (le16 payload.length ++ payload)

/-- Modelled from the spec: the raster payload — "one raster-line opcode
per row" (§4.2 step 2g). -/
def add_raster_data (rows : List (List ℕ)) (st : RasterState) : RasterState :=
  { st with
    data := st.data ++ rows.flatMap (raster_line_bytes st.compression) }

/-- Modelled from the spec: the `print` opcode — "0x1A for non-last page,
0x1B for last page" (§4.2 step 2h). -/
def add_print (last : Bool) (st : RasterState) : RasterState :=
  { st with
    data := st.data ++ [if last then 0x1B else 0x1A],
    page_number := st.page_number + 1 }

/-- The `try: ...; except BrotherQLUnsupportedCmd: pass` idiom of
`spool.py`: attempt an emission, keep the previous state on failure. -/
def attempt (f : RasterState → Except ExcClass RasterState)
    (st : RasterState) : RasterState :=
  match f st with
  | Except.ok s => s
  | Except.error _ => st

/-- The job prolog emitted by `Spool.__enter__` (spool.py): an attempted
`switch_mode`, `invalidate`, `initialize`, and a second attempted
`switch_mode`. -/
def prologue (m : Model) (st : RasterState) : RasterState :=
  attempt (add_switch_mode m)
    (add_init_magic (add_invalidate m (attempt (add_switch_mode m) st)))

/-- The media fields assigned by `Spool.render` before
`add_media_and_quality`, by the label's form factor (spool.py lines
298–312). -/
def set_media (lab : Label) (st : RasterState) : RasterState :=
  match lab.form_factor with
  | FormFactor.DIE_CUT =>
    { st with
      mtype := 0x0B, mwidth := lab.tape_size.1,
      mlength := lab.tape_size.2 }
  | FormFactor.ROUND_DIE_CUT =>
    { st with
      mtype := 0x0B, mwidth := lab.tape_size.1,
      mlength := lab.tape_size.2 }
  | FormFactor.ENDLESS =>
    { st with mtype := 0x0A, mwidth := lab.tape_size.1, mlength := 0 }
  | FormFactor.PTOUCH_ENDLESS =>
    { st with mtype := 0x00, mwidth := lab.tape_size.1, mlength := 0 }

/-- The `try` block around `add_autocut`/`add_cut_every` in
`Spool.render`: partial writes before the failing emission are kept, the
failure itself is swallowed. -/
def try_autocut (m : Model) (auto_cut : Bool) (st : RasterState) :
    RasterState :=
  if auto_cut then
    match add_autocut m true st with
    | Except.error _ => st
    | Except.ok s1 =>
      match add_cut_every m 1 s1 with
      | Except.error _ => s1
      | Except.ok s2 => s2
  else st

/-- The `try` block around the expanded-mode emission in `Spool.render`:
the flag assignments (`dpi_600 := False`, `cut_at_end := auto_cut`,
`two_color_printing := False`) happen before the attempted emission and
persist even if it fails. -/
def try_expanded (m : Model) (auto_cut : Bool) (st : RasterState) :
    RasterState :=
  let s := { st with
    dpi_600 := false, cut_at_end := auto_cut,
    two_color_printing := false }
  attempt (add_expanded_mode m) s

/-- The `try` block around the compression emission in `Spool.render`. -/
def try_compression (m : Model) (compress : Bool) (st : RasterState) :
    RasterState :=
  if compress then attempt (add_compression m true) st else st

/-- The per-page emission sequence of `Spool.render` (spool.py lines
295–350): status information, media fields and quality, media/quality
command, attempted autocut and cut-every, attempted expanded mode,
margins, attempted compression, raster data, print. -/
def spool_render_page (m : Model) (lab : Label)
    (auto_cut high_quality compress : Bool) (img_height : ℕ)
    (rows : List (List ℕ)) (last : Bool) (st : RasterState) : RasterState :=
  let s1 := add_status_information st
  let s2 := set_media lab s1
  let s3 := { s2 with pquality := if high_quality then 1 else 0 }
  let s4 := add_media_and_quality img_height s3
  let s5 := try_autocut m auto_cut s4
  let s6 := try_expanded m auto_cut s5
  let s7 := add_margins lab.feed_margin s6
  let s8 := try_compression m compress s7
  let s9 := add_raster_data rows s8
  add_print last s9

/-- The optional, capability-gated opcodes of the encoder (§4.2.2). -/
inductive GatedOp where
  | switch_mode
  | autocut
  | cut_every
  | expanded_mode
  | compression
deriving DecidableEq, Repr

/-- The capability flag that gates each optional opcode (§4.2.2). -/
def gate_flag (op : GatedOp) (m : Model) : Bool :=
  match op with
  | GatedOp.switch_mode => m.supports_mode_setting
  | GatedOp.autocut => m.supports_cutting
  | GatedOp.cut_every => m.supports_cutting
  | GatedOp.expanded_mode => m.supports_expanded_mode
  | GatedOp.compression => m.supports_compression

/-- Request one gated opcode (with the arguments `Spool.render` uses). -/
def emit_gated (op : GatedOp) (m : Model) (st : RasterState) :
    Except ExcClass RasterState :=
  match op with
  | GatedOp.switch_mode => add_switch_mode m st
  | GatedOp.autocut => add_autocut m true st
  | GatedOp.cut_every => add_cut_every m 1 st
  | GatedOp.expanded_mode => add_expanded_mode m st
  | GatedOp.compression => add_compression m true st

/-- The media-type byte `Spool.render` selects for a label. -/
def media_type (lab : Label) : ℕ :=
  match lab.form_factor with
  | FormFactor.DIE_CUT => 0x0B
  | FormFactor.ROUND_DIE_CUT => 0x0B
  | FormFactor.ENDLESS => 0x0A
  | FormFactor.PTOUCH_ENDLESS => 0x00

/-- The media-width byte `Spool.render` selects for a label. -/
def media_width (lab : Label) : ℕ := lab.tape_size.1

/-- The media-length byte `Spool.render` selects for a label. -/
def media_length (lab : Label) : ℕ :=
  match lab.form_factor with
  | FormFactor.DIE_CUT => lab.tape_size.2
  | FormFactor.ROUND_DIE_CUT => lab.tape_size.2
  | FormFactor.ENDLESS => 0
  | FormFactor.PTOUCH_ENDLESS => 0

/-- The bytes of the `media_and_quality` command as emitted for a label
by `spool_render_page`. -/
def media_quality_cmd (lab : Label) (high_quality : Bool) (page_number : ℕ)
    (raster_lines : ℕ) : List ℕ :=
  [0x1B, 0x69, 0x7A, media_type lab, media_width lab, media_length lab]
    ++ le32 raster_lines
    ++ [if high_quality then 1 else 0, if page_number = 0 then 0 else 1]

/-- The bytes the attempted autocut/cut-every block contributes. -/
def autocut_bytes (m : Model) (auto_cut : Bool) : List ℕ :=
  if auto_cut && m.supports_cutting then
    [0x1B, 0x69, 0x4D, 0x40, 0x1B, 0x69, 0x41, 0x01]
  else []

/-- The bytes the attempted expanded-mode block contributes. -/
def expanded_bytes (m : Model) (auto_cut : Bool) : List ℕ :=
  if m.supports_expanded_mode then
    [0x1B, 0x69, 0x4B, if auto_cut then 0x08 else 0x00]
  else []

/-- The bytes the attempted compression block contributes. -/
def compression_bytes (m : Model) (compress : Bool) : List ℕ :=
  if compress && m.supports_compression then [0x4D, 0x02] else []

/-! ## Render pipeline geometry (`renderers/base.py`)

Python float arithmetic is modelled by exact rational arithmetic; the
geometry computations involved stay far from the rounding boundaries of
IEEE doubles. -/

/-- Per-job render configuration (`renderers.base.RenderOptions`).
Palette colours are RGB triples with components in `[0, 1]`. -/
structure RenderOptions where
  rotate : ℕ := 0
  auto_rotate : Bool := true
  allow_scale_raster : Bool := true
  allow_scale_physical_dims : Bool := true
  printable_pixels : ℕ × ℕ := (0, 0)
  device_pixels : ℕ × ℕ := (0, 0)
  device_pixels_offs : ℤ × ℤ := (0, 0)
  device_pixels_padding_bottom : ℕ := 0
  dpi : ℚ := 300
  dither : Bool := true
  palette : List (ℚ × ℚ × ℚ) := [(0, 0, 0), (1, 1, 1)]
deriving DecidableEq, Repr

/-- `RenderOptions.is_endless`: whether the label is endless (printable
height 0). -/
def RenderOptions.is_endless (ro : RenderOptions) : Bool :=
  ro.printable_pixels.2 == 0

/-- The assertions of `RenderOptions.validate`, as a decidable check. -/
def RenderOptions.validateB (ro : RenderOptions) : Bool :=
  0 < ro.printable_pixels.1 && 0 < ro.device_pixels.1
    && ro.printable_pixels.1 ≤ ro.device_pixels.1
    && ro.printable_pixels.2 ≤ ro.device_pixels.2
    && (!ro.is_endless || ro.device_pixels.2 == 0)
    && 0 < ro.dpi
    && (ro.rotate == 0 || ro.rotate == 90 || ro.rotate == 180
      || ro.rotate == 270)
    && ro.palette.all fun c =>
      0 ≤ c.1 && c.1 ≤ 1 && 0 ≤ c.2.1 && c.2.1 ≤ 1 && 0 ≤ c.2.2 && c.2.2 ≤ 1

/-- Python's built-in `round` on a non-negative-or-negative rational:
round half to even (banker's rounding). -/
def pyRound (q : ℚ) : ℤ :=
  let f := Int.floor q
  let r := q - f
  if r < 1 / 2 then f
  else if 1 / 2 < r then f + 1
  else if f % 2 = 0 then f else f + 1

/-- The aspect-ratio-preserving fit of `Renderer._render_page`
(base.py lines 241–254): scale to the printable width; on die-cut labels
clamp to the printable height and re-clamp the width; round both axes
with Python `round`. -/
def fitSize (ro : RenderOptions) (page_w page_h : ℕ) : ℤ × ℤ :=
  let aspect_ratio : ℚ := (page_w : ℚ) / (page_h : ℚ)
  let w : ℚ := (ro.printable_pixels.1 : ℚ)
  let h : ℚ := (ro.printable_pixels.1 : ℚ) / aspect_ratio
  let wh : ℚ × ℚ :=
    if !ro.is_endless && h > (ro.printable_pixels.2 : ℚ) then
      let w' : ℚ := (ro.printable_pixels.2 : ℚ) * aspect_ratio
      let h' : ℚ := (ro.printable_pixels.2 : ℚ)
      if w' > (ro.printable_pixels.1 : ℚ) then
        ((ro.printable_pixels.1 : ℚ), h' * ((ro.printable_pixels.1 : ℚ) / w'))
      else (w', h')
    else (w, h)
  (pyRound wh.1, pyRound wh.2)

/-- The composed device image produced by `Renderer._render_page`:
its dimensions, the paste offset, and the dimensions of the quantized
content that is pasted. -/
structure DeviceImage where
  width : ℤ
  height : ℤ
  paste_offs : ℤ × ℤ
  content_size : ℤ × ℤ
deriving DecidableEq, Repr

/-- Failure modes of `Renderer._render_page`: a failed `assert`, or the
`NotImplementedError` raised when a scaling flag is off. -/
inductive RenderErr where
  | assertion_failed
  | not_implemented
deriving DecidableEq, Repr

/-- `Renderer._render_page` (base.py lines 224–283): validate the
options, reject disabled scaling modes, fit the page into the printable
pixels, quantize, and paste onto the device canvas whose width is
`device_pixels.w` and whose height is `device_pixels.h` for die-cut or
the fitted content height plus the bottom padding for endless labels. -/
def render_page (ro : RenderOptions) (page_w page_h : ℕ) :
    Except RenderErr DeviceImage :=
  if !ro.validateB then Except.error RenderErr.assertion_failed
  else if !ro.allow_scale_raster then Except.error RenderErr.not_implemented
  else if !ro.allow_scale_physical_dims then
    Except.error RenderErr.not_implemented
  else if !(0 < page_w && 0 < page_h) then
    Except.error RenderErr.assertion_failed
  else if !(1 < ro.palette.length && ro.palette.length ≤ 256) then
    Except.error RenderErr.assertion_failed
  else
    let wh := fitSize ro page_w page_h
    let th : ℤ := if ro.is_endless then
        wh.2 + (ro.device_pixels_padding_bottom : ℤ)
      else (ro.device_pixels.2 : ℤ)
    Except.ok
      { width := (ro.device_pixels.1 : ℤ), height := th,
        paste_offs := ro.device_pixels_offs, content_size := wh }

/-- The render options `Spool.render_options` derives from a model and a
label (spool.py lines 199–217). -/
def spool_render_options (m : Model) (lab : Label) : RenderOptions :=
  { rotate := 0, auto_rotate := true,
    allow_scale_physical_dims := true, allow_scale_raster := true,
    printable_pixels := lab.dots_printable,
    device_pixels := (m.number_bytes_per_row * 8, lab.dots_total.2),
    device_pixels_offs := (lab.offset_r + m.additional_offset_r, 0) }

/-! ## Text renderer (`renderers/text.py`)

The text bounding box is computed by the external font library; it
enters the model as the parameters `bbox_w`/`bbox_h` (the values
`_compute_text_bbox` returns at the target DPI). -/

/-- The native page size reported by `TextRenderer._do_compute_page_size`
after `_do_open` ran: the bounding box plus the margin (in pixels at the
configured DPI), clamped from below by the printable pixels through
Python's `max`. -/
def text_page_size (ro : RenderOptions) (bbox_w bbox_h : ℕ)
    (margin_pt : ℚ) : ℚ × ℚ :=
  let margin_px : ℚ := margin_pt / 72 * ro.dpi
  (max (ro.printable_pixels.1 : ℚ) ((bbox_w : ℚ) + margin_px),
   max (ro.printable_pixels.2 : ℚ) ((bbox_h : ℚ) + margin_px))

/-- The image `TextRenderer._do_render` produces: a page of the requested
pixel size with the text block anchored (PIL anchor "mm", i.e. centered)
at the integer midpoint of the page. -/
structure TextImage where
  width : ℕ
  height : ℕ
  anchor : ℕ × ℕ
  centered : Bool
deriving DecidableEq, Repr

/-- `TextRenderer._do_render` (text.py lines 167–189): draw the text
centered ("mm" anchor) at `(w // 2, h // 2)` on a `w × h` page. -/
def text_render (page_w page_h : ℕ) : TextImage :=
  { width := page_w, height := page_h,
    anchor := (page_w / 2, page_h / 2), centered := true }

/-! ## Fuzzy identifier lookup (`cli.py`)

`_fuzzy_match` delegates its error path to `difflib.get_close_matches`
from the Python standard library, which is modelled here exactly:
`SequenceMatcher` (with no junk and short sequences) repeatedly finds the
longest matching block — ties resolved to the earliest start in the
first then the second sequence — and the ratio is
`2 · matched / (len(a) + len(b))`, compared against the `0.6` cutoff and
ordered as `(ratio, key)` pairs, largest first, keeping the top 3.
Ratios are represented as exact numerator/denominator pairs; all ratios
arising here are far from the rounding error of IEEE doubles, so exact
comparison coincides with Python's float comparison. -/

/-- `_normalise` (cli.py): lower-case, then keep only ASCII letters and
digits. -/
def normalise (x : String) : String :=
  String.mk ((x.toList.map Char.toLower).filter fun c =>
    c.isAlpha || c.isDigit)

/-- Length of the common prefix of two character lists. -/
def commonLen : List Char → List Char → ℕ
  | x :: xs, y :: ys => if x = y then commonLen xs ys + 1 else 0
  | _, _ => 0

/-- `SequenceMatcher.find_longest_match` over whole sequences (no junk):
the `(i, j, k)` maximizing `k` such that `a[i:i+k] = b[j:j+k]`, ties
resolved to the smallest `i`, then the smallest `j`. -/
def longestMatch (a b : List Char) : ℕ × ℕ × ℕ :=
  let cands := (List.range a.length).flatMap fun i =>
    (List.range b.length).map fun j => (i, j, commonLen (a.drop i) (b.drop j))
  cands.foldl (fun best c => if best.2.2 < c.2.2 then c else best) (0, 0, 0)

/-- Total size of `SequenceMatcher.get_matching_blocks`: recursively
decompose around the longest matching block.  The fuel argument bounds
the recursion depth; every recursive call strictly decreases
`a.length + b.length`, so `a.length + b.length` fuel is always enough. -/
def matchedTotal : ℕ → List Char → List Char → ℕ
  | 0, _, _ => 0
  | fuel + 1, a, b =>
    let ijk := longestMatch a b
    if ijk.2.2 = 0 then 0
    else
      matchedTotal fuel (a.take ijk.1) (b.take ijk.2.1) + ijk.2.2
        + matchedTotal fuel (a.drop (ijk.1 + ijk.2.2))
            (b.drop (ijk.2.1 + ijk.2.2))

/-- `SequenceMatcher.ratio` of two strings as an exact fraction
`(numerator, denominator) = (2 · matched, len(a) + len(b))`. -/
def ratioFrac (a b : String) : ℕ × ℕ :=
  let la := a.toList
  let lb := b.toList
  (2 * matchedTotal (la.length + lb.length) la lb, la.length + lb.length)

/-- Lexicographic comparison of character lists by code point (Python's
string `<`). -/
def charListLt : List Char → List Char → Bool
  | [], [] => false
  | [], _ :: _ => true
  | _ :: _, [] => false
  | x :: xs, y :: ys =>
    if x.toNat < y.toNat then true
    else if y.toNat < x.toNat then false
    else charListLt xs ys

/-- Python's string `<`: lexicographic by code point. -/
def strLt (a b : String) : Bool := charListLt a.toList b.toList

/-- Descending order on `(ratio, key)` used by `heapq.nlargest`: larger
ratio first; on equal ratios, the lexicographically larger key first.
Fractions are compared by cross-multiplication. -/
def scoreBefore (x y : (ℕ × ℕ) × String) : Bool :=
  let cx := x.1.1 * y.1.2
  let cy := y.1.1 * x.1.2
  if cx ≠ cy then cy < cx else strLt y.2 x.2

/-- Insert into a list sorted by the strict order `f`. -/
def insertBy (f : α → α → Bool) (x : α) : List α → List α
  | [] => [x]
  | y :: ys => if f x y then x :: y :: ys else y :: insertBy f x ys

/-- Insertion sort by the strict order `f`. -/
def sortBy (f : α → α → Bool) : List α → List α
  | [] => []
  | x :: xs => insertBy f x (sortBy f xs)

/-- Ascending sort of strings (Python's `sorted`). -/
def sortStr (l : List String) : List String :=
  sortBy strLt l

/-- `difflib.get_close_matches(word, possibilities)` with the default
`n = 3`, `cutoff = 0.6`: keep the possibilities whose ratio against
`word` reaches the cutoff (the `real_quick_ratio`/`quick_ratio` upper
bounds filter exactly the same set), order them largest first as
`(ratio, key)` pairs, and return the top 3 keys. -/
def getCloseMatches (word : String) (possibilities : List String) :
    List String :=
  let scored := possibilities.filterMap fun x =>
    let f := ratioFrac word x
    if 6 * f.2 ≤ 10 * f.1 then some (f, x) else none
  ((sortBy scoreBefore scored).take 3).map fun p => p.2

/-- Insert into a Python dict modelled as an insertion-ordered
association list: an existing key keeps its position and gets the new
value, a new key is appended. -/
def dictInsert (d : List (String × String)) (k v : String) :
    List (String × String) :=
  if d.any fun p => p.1 == k then
    d.map fun p => if p.1 == k then (k, v) else p
  else d ++ [(k, v)]

/-- Look a key up in the association-list dict. -/
def dictGet (d : List (String × String)) (k : String) : Option String :=
  (d.find? fun p => p.1 == k).map fun p => p.2

/-- Errors raised by `_fuzzy_match`; both carry the class
`BrotherQLUnknownId`.  `unknown_id_close` lists the close matches,
`unknown_id_all` lists all possible values (the fallback when there is no
close match). -/
inductive FuzzyError where
  | unknown_id_close (close : List String)
  | unknown_id_all (all : List String)
deriving DecidableEq, Repr

/-- The loop of `_fuzzy_match` (cli.py lines 119–129): normalize each
candidate, record it in the `possible_names` dict, and return the first
candidate whose normalized name equals the normalized needle. -/
def fuzzyMatchGo (needle_norm : String) :
    List (String × α) → List (String × String) → Except FuzzyError α
  | [], dict =>
    let close := getCloseMatches needle_norm (dict.map fun p => p.1)
    if close.isEmpty then
      Except.error (FuzzyError.unknown_id_all
        (sortStr (dict.map fun p => p.2)))
    else
      Except.error (FuzzyError.unknown_id_close
        (sortStr (close.filterMap fun k => dictGet dict k)))
  | (obj_name, obj) :: rest, dict =>
    let dict' := dictInsert dict (normalise obj_name) obj_name
    if normalise obj_name = needle_norm then Except.ok obj
    else fuzzyMatchGo needle_norm rest dict'

/-- `_fuzzy_match` (cli.py lines 111–144): fuzzy lookup of `needle`
among `(name, value)` pairs. -/
def fuzzy_match (needle : String) (haystack : List (String × α)) :
    Except FuzzyError α :=
  fuzzyMatchGo (normalise needle) haystack []

/-- `_resolve_model` (cli.py lines 243–247): fuzzy lookup of a model by
name in the catalog. -/
def resolve_model (model_name : String) : Except FuzzyError Model :=
  fuzzy_match model_name (ALL_MODELS.map fun dev => (dev.name, dev))

/-! ## PyUSB device URLs (`backends/pyusb.py`)

The enumerated USB devices (the result of `discover()`) enter the model
as an explicit list; handles are abstract numbers. -/

/-- The fields of `backends.base.DeviceInfo` that URL matching consults.
USB ids are stored as four-digit lower-case hex strings, as the
discovery functions produce them. -/
structure DeviceInfo where
  backend : String := ""
  model : String := ""
  serial : String := ""
  usb_product_id : String := ""
  usb_vendor_id : String := ""
  device_url : String := ""
  handle : Option ℕ := none
deriving DecidableEq, Repr

/-- Whether a character is one of the ASCII hex digits accepted by the
`[0-9A-Fa-f]` class of `RE_DEVICE_SPECIFIER`. -/
def isHexChar (c : Char) : Bool :=
  c.isDigit || ('a' ≤ c && c ≤ 'f') || ('A' ≤ c && c ≤ 'F')

/-- `BackendPyUSB.parse_device_url`, i.e. the regular expression
`^(usb://)?0x([0-9A-Fa-f]{4}):0x([0-9A-Fa-f]{4})(/([A-Za-z0-9]+)?)?$`:
an optional `usb://` scheme, two four-digit hex ids (returned
lower-cased) and an optional `/serial` suffix (returned verbatim; a bare
trailing `/` leaves the serial empty).  `none` models the `AttributeError`
the Python code raises on a non-matching URL (it calls `.lower()` on
`None`). -/
def parse_device_url (url : String) : Option (String × String × Option String) :=
  let cs := url.toList
  let cs := if cs.take 6 = "usb://".toList then cs.drop 6 else cs
  match cs with
  | '0' :: 'x' :: v1 :: v2 :: v3 :: v4 :: ':' :: '0' :: 'x'
      :: p1 :: p2 :: p3 :: p4 :: rest =>
    if [v1, v2, v3, v4, p1, p2, p3, p4].all isHexChar then
      let vendor := String.mk ([v1, v2, v3, v4].map Char.toLower)
      let product := String.mk ([p1, p2, p3, p4].map Char.toLower)
      match rest with
      | [] => some (vendor, product, none)
      | '/' :: serial =>
        if serial.isEmpty then some (vendor, product, none)
        else if serial.all fun c => c.isAlpha || c.isDigit then
          some (vendor, product, some (String.mk serial))
        else none
      | _ => none
    else none
  | _ => none

/-- The filter of `BackendPyUSB.device_url_to_device_infos`
(pyusb.py lines 370–382): a device survives only if every parsed,
non-empty component of the URL equals the corresponding field. -/
def matchDeviceInfos (vendor_id product_id : String)
    (serial_id : Option String) (devices : List DeviceInfo) :
    List DeviceInfo :=
  devices.filter fun d =>
    (vendor_id.isEmpty || d.usb_vendor_id == vendor_id)
      && (product_id.isEmpty || d.usb_product_id == product_id)
      && (match serial_id with
          | none => true
          | some s => s.isEmpty || d.serial == s)

/-- `BackendPyUSB.device_url_to_device_infos`: parse the URL and filter
the enumerated devices. -/
def device_url_to_device_infos (url : String)
    (enumerated : List DeviceInfo) : Option (List DeviceInfo) :=
  (parse_device_url url).map fun q =>
    matchDeviceInfos q.1 q.2.1 q.2.2 enumerated

/-- Failure modes of `device_url_to_usb_device`: the `AttributeError` of
a malformed URL, the `assert isinstance(..., usb.core.Device)` on a
handle-less record, or the raised exception class. -/
inductive UsbResolveErr where
  | attribute_error
  | assertion_failed
  | raised (cls : ExcClass)
deriving DecidableEq, Repr

/-- The selection loop of `BackendPyUSB.device_url_to_usb_device`
(pyusb.py lines 384–400): take the first matching device's handle (later
matches only log a warning); raise the plain `BrotherQLError` ("Cannot
find printer") when nothing matched. -/
def pickPrinter : List DeviceInfo → Option ℕ → Except UsbResolveErr ℕ
  | [], none => Except.error (UsbResolveErr.raised ExcClass.BrotherQLError)
  | [], some h => Except.ok h
  | d :: rest, acc =>
    match acc with
    | some _ => pickPrinter rest acc
    | none =>
      match d.handle with
      | none => Except.error UsbResolveErr.assertion_failed
      | some h => pickPrinter rest (some h)

/-- `BackendPyUSB.device_url_to_usb_device`: resolve a device URL to the
handle of the underlying USB device. -/
def device_url_to_usb_device (url : String)
    (enumerated : List DeviceInfo) : Except UsbResolveErr ℕ :=
  match device_url_to_device_infos url enumerated with
  | none => Except.error UsbResolveErr.attribute_error
  | some infos => pickPrinter infos none

/-! ## `LabelMetadata.__bool__` (`spool.py`)

Python values flowing through the `and` chain are either strings or
booleans; `os.path.isfile` is the external file-system predicate `fs`. -/

/-- A Python value appearing in the `LabelMetadata.__bool__` expression:
a string or a boolean. -/
inductive PyVal where
  | pystr (s : String)
  | pybool (b : Bool)
deriving DecidableEq, Repr

/-- Python truthiness of such a value. -/
def PyVal.truthy : PyVal → Bool
  | PyVal.pystr s => !(s == "")
  | PyVal.pybool b => b

/-- Python's short-circuiting `and` on already-evaluated operands:
return the left operand if it is falsy, the right operand otherwise. -/
def pyAnd (a b : PyVal) : PyVal := if a.truthy then b else a

/-- The `LabelMetadata` record (`spool.LabelMetadata`), with the physical
dimensions as rationals. -/
structure LabelMetadata where
  label_name : String := ""
  image_filename : String := ""
  label_width_mm : ℚ := 0
  label_height_mm : ℚ := 0
  margin_width_mm : ℚ := 0
  margin_height_mm : ℚ := 0
deriving DecidableEq, Repr

/-- The value computed by `LabelMetadata.__bool__` (spool.py lines
62–70): the left-associated `and` chain over the image filename, the
four dimension comparisons, and the `os.path.isfile` result. -/
def labelMetadataBool (m : LabelMetadata) (fs : String → Bool) : PyVal :=
  pyAnd (pyAnd (pyAnd (pyAnd (pyAnd
    (PyVal.pystr m.image_filename)
    (PyVal.pybool (decide (0 ≤ m.label_width_mm))))
    (PyVal.pybool (decide (0 ≤ m.label_height_mm))))
    (PyVal.pybool (decide (0 ≤ m.margin_width_mm))))
    (PyVal.pybool (decide (0 ≤ m.margin_height_mm))))
    (PyVal.pybool (fs m.image_filename))

/-- The Python `TypeError` raised when `__bool__` returns a non-bool. -/
inductive PyExc where
  | type_error
deriving DecidableEq, Repr

/-- Evaluating `bool(metadata)`: Python requires `__bool__` to return an
actual `bool` and raises `TypeError` otherwise. -/
def labelMetadataTruth (m : LabelMetadata) (fs : String → Bool) :
    Except PyExc Bool :=
  match labelMetadataBool m fs with
  | PyVal.pybool b => Except.ok b
  | PyVal.pystr _ => Except.error PyExc.type_error

/-! ## Theorems: PackBits (claim C1) -/

/-- A prefix of length at most the head run is constant. -/
theorem runLen_take (b : ℕ) (rest : List ℕ) (k : ℕ) (hk : k ≤ runLen b rest) :
    rest.take k = List.replicate k b := by
  induction rest generalizing k with
  | nil => simp [runLen] at hk; simp [hk]
  | cons x xs ih =>
    simp only [runLen] at hk
    by_cases hx : x = b
    · rw [if_pos hx] at hk
      match k with
      | 0 => simp
      | k + 1 =>
        simp only [List.take_succ_cons, List.replicate_succ, hx]
        rw [ih k (by omega)]
    · rw [if_neg hx] at hk
      interval_cases k
      simp

/-- A literal span beginning where no run begins takes at least one
byte. -/
theorem litLen_pos (x : ℕ) (xs : List ℕ) (h : runLen x xs = 0) :
    1 ≤ litLen (x :: xs) := by
  cases xs with
  | nil => simp [litLen]
  | cons y ys =>
    simp only [runLen] at h
    by_cases hy : y = x
    · rw [if_pos hy] at h
      omega
    · simp only [litLen]
      rw [if_neg fun hh => hy hh.symm]
      omega

/-- A literal span never takes more bytes than exist. -/
theorem litLen_le : ∀ l : List ℕ, litLen l ≤ l.length
  | [] => by simp [litLen]
  | [_] => by simp [litLen]
  | x :: y :: xs => by
    simp only [litLen]
    split
    · simp
    · have h := litLen_le (y :: xs)
      simp only [List.length_cons] at h ⊢
      omega

/-- Decoding a run block yields the run and continues. -/
theorem decode_run_block (n b : ℕ) (tl : List ℕ) (h1 : 2 ≤ n)
    (h2 : n ≤ 128) :
    packbits_decode ((257 - n) :: b :: tl)
      = List.replicate n b ++ packbits_decode tl := by
  rw [packbits_decode.eq_def]
  dsimp only
  rw [if_neg (by omega), if_neg (by omega), Nat.sub_sub_self (by omega)]

/-- Decoding a literal block yields the literal bytes and continues. -/
theorem decode_lit_block (m : ℕ) (lit tl : List ℕ) (h1 : 1 ≤ m)
    (h2 : m ≤ 128) (hlen : lit.length = m) :
    packbits_decode ((m - 1) :: (lit ++ tl)) = lit ++ packbits_decode tl := by
  rw [packbits_decode.eq_def]
  dsimp only
  rw [if_pos (by omega : m - 1 ≤ 127)]
  rw [show m - 1 + 1 = m by omega, ← hlen, List.take_left, List.drop_left]

/-- PackBits decoding inverts PackBits encoding on every byte sequence. -/
theorem packbits_roundtrip : ∀ l : List ℕ,
    packbits_decode (packbits_encode l) = l
  | [] => by
    rw [packbits_encode.eq_def, packbits_decode.eq_def]
  | b :: rest => by
    rw [packbits_encode.eq_def]
    dsimp only
    by_cases h2 : 2 ≤ min (runLen b rest + 1) 128
    · rw [if_pos h2]
      rw [decode_run_block _ _ _ h2 (Nat.min_le_right _ _)]
      rw [packbits_roundtrip (rest.drop (min (runLen b rest + 1) 128 - 1))]
      have hx : min (runLen b rest + 1) 128 - 1 ≤ runLen b rest := by omega
      generalize hn : min (runLen b rest + 1) 128 = n at *
      obtain ⟨k, rfl⟩ : ∃ k, n = k + 1 := ⟨n - 1, by omega⟩
      simp only [Nat.add_sub_cancel] at hx ⊢
      rw [List.replicate_succ, List.cons_append]
      congr 1
      conv_rhs => rw [← List.take_append_drop k rest]
      rw [runLen_take b rest k hx]
    · rw [if_neg h2]
      have hp := litLen_pos b rest (by omega)
      have hl := litLen_le (b :: rest)
      simp only [List.length_cons] at hl
      rw [decode_lit_block _ _ _ (by omega) (Nat.min_le_right _ _)
        (by simp [List.length_take]; omega)]
      rw [packbits_roundtrip (rest.drop (min (litLen (b :: rest)) 128 - 1))]
      generalize hm : min (litLen (b :: rest)) 128 = m at *
      obtain ⟨k, rfl⟩ : ∃ k, m = k + 1 := ⟨m - 1, by omega⟩
      simp only [Nat.add_sub_cancel, List.take_succ_cons, List.cons_append]
      rw [List.take_append_drop]
termination_by l => l.length
decreasing_by
  all_goals simp [List.length_drop]
  all_goals omega

/-- C1: for every byte sequence `B`,
`packbits_decode (packbits_encode B) = B`; the encoder emits runs of
`n ≥ 2` identical bytes as `257 − n` followed by the byte and literal
spans of `n ≥ 1` bytes as `n − 1` followed by the bytes, capped at 128
bytes per run (which is how `packbits_encode` is defined), and in
particular maps `AA AA AA BB CC DD` to `FE AA 02 BB CC DD`, which
decodes back to the original. -/
theorem claim_C1_packbits :
    (∀ B : List ℕ, packbits_decode (packbits_encode B) = B)
    ∧ packbits_encode [0xAA, 0xAA, 0xAA, 0xBB, 0xCC, 0xDD]
        = [0xFE, 0xAA, 0x02, 0xBB, 0xCC, 0xDD]
    ∧ packbits_decode [0xFE, 0xAA, 0x02, 0xBB, 0xCC, 0xDD]
        = [0xAA, 0xAA, 0xAA, 0xBB, 0xCC, 0xDD] := by
  refine ⟨packbits_roundtrip, ?_, ?_⟩
  · rw [packbits_encode.eq_def]
    norm_num [runLen, litLen]
    rw [packbits_encode.eq_def]
    norm_num [runLen, litLen]
    rw [packbits_encode.eq_def]
  · rw [packbits_decode.eq_def]
    norm_num
    rw [packbits_decode.eq_def]
    norm_num
    rw [packbits_decode.eq_def]
    simp [List.replicate]

/-! ## Theorems: capability gating (claim C2) -/

set_option maxRecDepth 200000

/-- C2: for every Model lacking a capability flag and every opcode gated
by that flag, requesting the opcode raises `UnsupportedCommand` and
appends no bytes to the byte sink (the swallowing caller keeps the state
unchanged); for QL-500 (`supports_cutting = false`) the per-page emission
of `Spool.render` still completes — its output ends in the print opcode —
and contains no autocut opcode `1B 69 4D`. -/
theorem claim_C2_capability_gating :
    (∀ (m : Model) (op : GatedOp) (st : RasterState),
      gate_flag op m = false →
      emit_gated op m st = Except.error ExcClass.BrotherQLUnsupportedCmd
        ∧ attempt (emit_gated op m) st = st)
    ∧ ql_500.supports_cutting = false
    ∧ containsSeq [0x1B, 0x69, 0x4D]
        (spool_render_page ql_500 label_62 true true true 300
          [List.replicate 90 0] true (prologue ql_500 {})).data = false
    ∧ (spool_render_page ql_500 label_62 true true true 300
        [List.replicate 90 0] true (prologue ql_500 {})).data.getLast?
      = some 0x1B := by
  refine ⟨?_, rfl, ?_, ?_⟩
  · intro m op st h
    cases op <;>
      simp_all [emit_gated, gate_flag, attempt, add_switch_mode, add_autocut,
        add_cut_every, add_expanded_mode, add_compression]
  · decide
  · decide

/-- Witness for C2 at a concrete input: requesting autocut on the QL-500
fails with `UnsupportedCommand` and leaves the sink untouched. -/
theorem claim_C2_capability_gating_witness :
    gate_flag GatedOp.autocut ql_500 = false
    ∧ emit_gated GatedOp.autocut ql_500 {}
        = Except.error ExcClass.BrotherQLUnsupportedCmd
    ∧ attempt (emit_gated GatedOp.autocut ql_500) {} = {} :=
  ⟨rfl, (claim_C2_capability_gating.1 ql_500 GatedOp.autocut {} rfl).1,
    (claim_C2_capability_gating.1 ql_500 GatedOp.autocut {} rfl).2⟩

/-! ## Theorems: the media declaration (claim C5) -/

/-- `set_media` only rewrites the three media fields. -/
theorem set_media_eq (lab : Label) (st : RasterState) :
    set_media lab st
      = { st with
          mtype := media_type lab,
          mwidth := media_width lab,
          mlength := media_length lab } := by
  cases h : lab.form_factor <;>
    simp [set_media, media_type, media_width, media_length, h]

/-- The attempted autocut block only appends `autocut_bytes`. -/
theorem try_autocut_eq (m : Model) (ac : Bool) (st : RasterState) :
    try_autocut m ac st
      = { st with data := st.data ++ autocut_bytes m ac } := by
  cases hc : m.supports_cutting <;> cases ac <;>
    simp [try_autocut, add_autocut, add_cut_every, autocut_bytes, hc]

/-- The attempted expanded-mode block appends `expanded_bytes` and sets
the three expanded-mode flags. -/
theorem try_expanded_eq (m : Model) (ac : Bool) (st : RasterState) :
    try_expanded m ac st
      = { st with
          data := st.data ++ expanded_bytes m ac,
          dpi_600 := false,
          cut_at_end := ac,
          two_color_printing := false } := by
  cases he : m.supports_expanded_mode <;> cases ac <;>
    simp [try_expanded, attempt, add_expanded_mode, expanded_bytes, he]

/-- The attempted compression block appends `compression_bytes` and
enables the compression flag exactly when supported and requested. -/
theorem try_compression_eq (m : Model) (cp : Bool) (st : RasterState) :
    try_compression m cp st
      = { st with
          data := st.data ++ compression_bytes m cp,
          compression := (cp && m.supports_compression)
            || st.compression } := by
  cases hc : m.supports_compression <;> cases cp <;>
    simp [try_compression, attempt, add_compression, compression_bytes, hc]

/-- C5: every page emitted by `Spool.render` writes the media declaration
— media type `0x0B` for die-cut and round die-cut (width and length from
the label's tape size in mm), `0x0A` for endless, `0x00` for P-touch
endless, with media length 0 for both endless forms — before the raster
payload. -/
theorem claim_C5_media_declaration (m : Model) (lab : Label)
    (auto_cut high_quality compress : Bool) (img_height : ℕ)
    (rows : List (List ℕ)) (last : Bool) (st : RasterState) :
    (∃ mid flag,
      (spool_render_page m lab auto_cut high_quality compress img_height rows
          last st).data
        = st.data ++ [0x1B, 0x69, 0x53]
          ++ media_quality_cmd lab high_quality st.page_number img_height
          ++ mid ++ rows.flatMap (raster_line_bytes flag)
          ++ [if last then 0x1B else 0x1A])
    ∧ ((lab.form_factor = FormFactor.DIE_CUT
        ∨ lab.form_factor = FormFactor.ROUND_DIE_CUT) →
       media_type lab = 0x0B ∧ media_width lab = lab.tape_size.1
         ∧ media_length lab = lab.tape_size.2)
    ∧ (lab.form_factor = FormFactor.ENDLESS →
       media_type lab = 0x0A ∧ media_width lab = lab.tape_size.1
         ∧ media_length lab = 0)
    ∧ (lab.form_factor = FormFactor.PTOUCH_ENDLESS →
       media_type lab = 0x00 ∧ media_width lab = lab.tape_size.1
         ∧ media_length lab = 0) := by
  refine ⟨⟨autocut_bytes m auto_cut ++ expanded_bytes m auto_cut
    ++ ([0x1B, 0x69, 0x64] ++ le16 lab.feed_margin)
    ++ compression_bytes m compress,
    (compress && m.supports_compression) || st.compression,
    ?_⟩, ?_, ?_, ?_⟩
  · simp [spool_render_page, add_status_information, set_media_eq,
      add_media_and_quality, try_autocut_eq, try_expanded_eq, add_margins,
      try_compression_eq, add_raster_data, add_print, media_quality_cmd,
      List.append_assoc]
  · intro h
    rcases h with h | h <;>
      simp [media_type, media_width, media_length, h]
  · intro h
    simp [media_type, media_width, media_length, h]
  · intro h
    simp [media_type, media_width, media_length, h]

/-- Witness for C5 at a concrete input: the endless label `"62"` is
declared with media type `0x0A`, width 62 and length 0. -/
theorem claim_C5_media_declaration_witness :
    media_type label_62 = 0x0A ∧ media_width label_62 = label_62.tape_size.1
      ∧ media_length label_62 = 0 :=
  (claim_C5_media_declaration ql_600 label_62 true true true 300 [] true
    {}).2.2.1 rfl

/-! ## Theorems: invalidate preamble and job prolog (claim C6) -/

/-- C6 (amended): for every catalog Model, the invalidate NUL count is
400 exactly on the two-color models and 200 otherwise; every job prolog
emits exactly that many NUL bytes immediately before the initialize magic
`1B 40` (whatever precedes them is either nothing or the switch-mode
opcode); a QL-600 job prolog consists of the switch-mode opcode, then its
200 NUL bytes, then `1B 40`, then the second switch-mode opcode — it does
not begin with the NUL bytes, because QL-600 supports mode setting and
`Spool.__enter__` attempts `switch_mode` first. -/
theorem claim_C6_invalidate_prolog :
    (∀ m ∈ ALL_MODELS,
      m.num_invalidate_bytes = if m.supports_two_color then 400 else 200)
    ∧ (∀ (m : Model) (st : RasterState), ∃ pre suf,
        (prologue m st).data
          = st.data ++ pre ++ List.replicate m.num_invalidate_bytes 0
            ++ ([0x1B, 0x40] ++ suf)
        ∧ (pre = [] ∨ pre = switch_mode_opcode))
    ∧ (prologue ql_600 {}).data
        = switch_mode_opcode ++ List.replicate 200 0
          ++ ([0x1B, 0x40] ++ switch_mode_opcode)
    ∧ ql_600.num_invalidate_bytes = 200 := by
  refine ⟨by decide, ?_, ?_, rfl⟩
  · intro m st
    cases hm : m.supports_mode_setting
    · exact ⟨[], [], by
        simp [prologue, attempt, add_switch_mode, add_invalidate,
          add_init_magic, hm], Or.inl rfl⟩
    · exact ⟨switch_mode_opcode, switch_mode_opcode, by
        simp [prologue, attempt, add_switch_mode, add_invalidate,
          add_init_magic, hm], Or.inr rfl⟩
  · simp [prologue, attempt, add_switch_mode, add_invalidate,
      add_init_magic, ql_600]

/-- Witness for C6 at concrete inputs: the QL-600 catalog entry obeys the
two-color rule, and the QL-500 prolog places its NUL bytes directly
before `1B 40`. -/
theorem claim_C6_invalidate_prolog_witness :
    (ql_600.num_invalidate_bytes
      = if ql_600.supports_two_color then 400 else 200)
    ∧ ∃ pre suf,
      (prologue ql_500 {}).data
        = ({} : RasterState).data ++ pre
          ++ List.replicate ql_500.num_invalidate_bytes 0
          ++ ([0x1B, 0x40] ++ suf)
      ∧ (pre = [] ∨ pre = switch_mode_opcode) :=
  ⟨claim_C6_invalidate_prolog.1 ql_600 (by decide),
    claim_C6_invalidate_prolog.2.1 ql_500 {}⟩

/-- Counterexample for C6 as stated: a QL-600 job does not begin with 200
NUL bytes (its first bytes are the switch-mode opcode). -/
theorem counterexample_C6_ql600_prolog_start :
    ¬ ((prologue ql_600 {}).data.take 200 = List.replicate 200 (0 : ℕ)) := by
  decide

/-! ## Theorems: label catalog invariants (claim C7) -/

/-- C7: for every Label of every catalog Model, the printable dot count
is bounded by the total dot count on each axis, and every endless-form
label has tape-size length, total-dots length and printable-dots length
all 0. -/
theorem claim_C7_label_invariants :
    ∀ m ∈ ALL_MODELS, ∀ lab ∈ m.labels,
      lab.dots_printable.1 ≤ lab.dots_total.1
      ∧ lab.dots_printable.2 ≤ lab.dots_total.2
      ∧ ((lab.form_factor = FormFactor.ENDLESS
          ∨ lab.form_factor = FormFactor.PTOUCH_ENDLESS) →
         lab.tape_size.2 = 0 ∧ lab.dots_total.2 = 0
           ∧ lab.dots_printable.2 = 0) := by
  decide

/-- Witness for C7 at a concrete input: the label `"62"` of the QL-600. -/
theorem claim_C7_label_invariants_witness :
    label_62.dots_printable.1 ≤ label_62.dots_total.1
    ∧ label_62.dots_printable.2 ≤ label_62.dots_total.2
    ∧ ((label_62.form_factor = FormFactor.ENDLESS
        ∨ label_62.form_factor = FormFactor.PTOUCH_ENDLESS) →
       label_62.tape_size.2 = 0 ∧ label_62.dots_total.2 = 0
         ∧ label_62.dots_printable.2 = 0) :=
  claim_C7_label_invariants ql_600 (by decide) label_62 (by decide)

/-! ## Theorems: render-page geometry (claim C3) -/

/-- `pyRound` is the identity on integers. -/
theorem pyRound_intCast (z : ℤ) : pyRound ((z : ℚ)) = z := by
  simp [pyRound]

/-- C3: whenever `Renderer._render_page` succeeds, the produced device
image has width `device_pixels.w`; its height is the fitted content
height plus `device_pixels_padding_bottom` on endless labels and
`device_pixels.h` on die-cut labels; and the quantized content — whose
size is the aspect-preserving fit — is pasted at `device_pixels_offs`. -/
theorem claim_C3_endless_geometry (ro : RenderOptions) (pw ph : ℕ)
    (hv : ro.validateB = true)
    (hsr : ro.allow_scale_raster = true)
    (hsp : ro.allow_scale_physical_dims = true)
    (hw : 0 < pw) (hh : 0 < ph)
    (hpal : 1 < ro.palette.length ∧ ro.palette.length ≤ 256) :
    ∃ img, render_page ro pw ph = Except.ok img
      ∧ img.width = (ro.device_pixels.1 : ℤ)
      ∧ (ro.is_endless = true →
         img.height = (fitSize ro pw ph).2
           + (ro.device_pixels_padding_bottom : ℤ))
      ∧ (ro.is_endless = false → img.height = (ro.device_pixels.2 : ℤ))
      ∧ img.paste_offs = ro.device_pixels_offs
      ∧ img.content_size = fitSize ro pw ph := by
  refine ⟨⟨(ro.device_pixels.1 : ℤ),
    (if ro.is_endless then
      (fitSize ro pw ph).2 + (ro.device_pixels_padding_bottom : ℤ)
    else (ro.device_pixels.2 : ℤ)),
    ro.device_pixels_offs, fitSize ro pw ph⟩, ?_, rfl, ?_, ?_, rfl, rfl⟩
  · simp [render_page, hv, hsr, hsp, hw, hh, hpal.1, hpal.2]
  · intro he
    simp [he]
  · intro he
    simp [he]

/-- Witness for C3 at a concrete input: rendering a 696×300 page for the
QL-600 with the endless label `"62"` yields a 720×300 device image. -/
theorem claim_C3_endless_geometry_witness :
    ∃ img, render_page (spool_render_options ql_600 label_62) 696 300
        = Except.ok img
      ∧ img.width = 720 ∧ img.height = 300 := by
  have hfit : fitSize (spool_render_options ql_600 label_62) 696 300
      = (696, 300) := by
    simp only [fitSize, spool_render_options, ql_600, label_62]
    norm_num [RenderOptions.is_endless]
    rw [show (696 : ℚ) = ((696 : ℤ) : ℚ) by norm_num,
      show (300 : ℚ) = ((300 : ℤ) : ℚ) by norm_num,
      pyRound_intCast, pyRound_intCast]
    exact ⟨rfl, rfl⟩
  obtain ⟨img, hok, hw, hend, -, -, -⟩ :=
    claim_C3_endless_geometry (spool_render_options ql_600 label_62) 696 300
      (by decide) (by decide) (by decide) (by decide) (by decide)
      (by constructor <;> decide)
  refine ⟨img, hok, ?_, ?_⟩
  · rw [hw]; decide
  · rw [hend (by decide), hfit]; decide

/-! ## Theorems: text renderer page size (claim C8) -/

/-- C8 (amended): the native page size `TextRenderer` reports is the
componentwise maximum of `printable_pixels` and the text bounding box
plus the margin (in pixels at the configured DPI); it equals bounding box
plus margin exactly when the latter reaches the printable size on both
axes; and `_do_render` composes the glyphs centered at the integer
midpoint of the page. -/
theorem claim_C8_text_page_size :
    (∀ (ro : RenderOptions) (bw bh : ℕ) (mpt : ℚ),
      text_page_size ro bw bh mpt
        = (max (ro.printable_pixels.1 : ℚ) ((bw : ℚ) + mpt / 72 * ro.dpi),
           max (ro.printable_pixels.2 : ℚ) ((bh : ℚ) + mpt / 72 * ro.dpi)))
    ∧ (∀ (ro : RenderOptions) (bw bh : ℕ) (mpt : ℚ),
      (ro.printable_pixels.1 : ℚ) ≤ (bw : ℚ) + mpt / 72 * ro.dpi →
      (ro.printable_pixels.2 : ℚ) ≤ (bh : ℚ) + mpt / 72 * ro.dpi →
      text_page_size ro bw bh mpt
        = ((bw : ℚ) + mpt / 72 * ro.dpi, (bh : ℚ) + mpt / 72 * ro.dpi))
    ∧ (∀ w h : ℕ, text_render w h
        = { width := w, height := h, anchor := (w / 2, h / 2),
            centered := true }) := by
  refine ⟨fun ro bw bh mpt => rfl, fun ro bw bh mpt h1 h2 => ?_,
    fun w h => rfl⟩
  simp [text_page_size, max_eq_right h1, max_eq_right h2]

/-- Counterexample for C8 as stated: for the QL-600 endless-62 options
(printable width 696) and a 100×50 text bounding box with the default
4 pt margin, the reported width is the printable width, not the bounding
box plus margin. -/
theorem counterexample_C8_clamped_width :
    (text_page_size (spool_render_options ql_600 label_62) 100 50 4).1
      ≠ (100 : ℚ) + 4 / 72 * (spool_render_options ql_600 label_62).dpi := by
  simp only [text_page_size, spool_render_options, ql_600, label_62]
  rw [max_eq_left (by norm_num)]
  norm_num

/-- Witness for C8 at a concrete input: with a 1000×50 bounding box the
reported size is the bounding box plus margin on both axes. -/
theorem claim_C8_text_page_size_witness :
    text_page_size (spool_render_options ql_600 label_62) 1000 50 4
      = (((1000 : ℕ) : ℚ)
          + 4 / 72 * (spool_render_options ql_600 label_62).dpi,
         ((50 : ℕ) : ℚ)
          + 4 / 72 * (spool_render_options ql_600 label_62).dpi) :=
  claim_C8_text_page_size.2.1 (spool_render_options ql_600 label_62) 1000 50 4
    (by norm_num [spool_render_options, ql_600, label_62])
    (by norm_num [spool_render_options, ql_600, label_62])

/-! ## Theorems: USB device-URL matching (claim C9) -/

/-- A `String.mk` of a non-empty character list is not the empty
string. -/
theorem mk_ne_empty_of_ne_nil (l : List Char) (h : l ≠ []) :
    String.mk l ≠ "" := by
  intro hc
  have h2 := congrArg String.length hc
  simp only [String.length] at h2
  exact h (List.length_eq_zero.mp h2)

/-- The components produced by `parse_device_url` are never empty:
the ids are four hex digits and the serial group requires at least one
character. -/
theorem parse_components (url v p : String) (ser : Option String)
    (h : parse_device_url url = some (v, p, ser)) :
    v ≠ "" ∧ p ≠ "" ∧ ∀ s, ser = some s → s ≠ "" := by
  simp only [parse_device_url] at h
  split at h
  · split at h
    · rename_i v1 v2 v3 v4 p1 p2 p3 p4 rest hhex
      split at h
      · simp only [Option.some.injEq, Prod.mk.injEq] at h
        obtain ⟨rfl, rfl, rfl⟩ := h
        refine ⟨mk_ne_empty_of_ne_nil _ (by simp),
          mk_ne_empty_of_ne_nil _ (by simp), ?_⟩
        intro s hs
        cases hs
      · rename_i serial
        split at h
        · simp only [Option.some.injEq, Prod.mk.injEq] at h
          obtain ⟨rfl, rfl, rfl⟩ := h
          refine ⟨mk_ne_empty_of_ne_nil _ (by simp),
            mk_ne_empty_of_ne_nil _ (by simp), ?_⟩
          intro s hs
          cases hs
        · split at h
          · simp only [Option.some.injEq, Prod.mk.injEq] at h
            obtain ⟨rfl, rfl, rfl⟩ := h
            refine ⟨mk_ne_empty_of_ne_nil _ (by simp),
              mk_ne_empty_of_ne_nil _ (by simp), ?_⟩
            intro s hs
            simp only [Option.some.injEq] at hs
            subst hs
            rename_i hne _
            refine mk_ne_empty_of_ne_nil _ ?_
            intro hl
            rw [hl] at hne
            simp at hne
          · cases h
      · cases h
    · cases h
  · cases h

/-- Surviving the device filter with non-empty components forces all
three fields to match. -/
theorem match_requires (v p s : String) (devs : List DeviceInfo)
    (d : DeviceInfo) (hv : v ≠ "") (hp : p ≠ "") (hs : s ≠ "")
    (hd : d ∈ matchDeviceInfos v p (some s) devs) :
    d.usb_vendor_id = v ∧ d.usb_product_id = p ∧ d.serial = s := by
  rw [matchDeviceInfos, List.mem_filter] at hd
  obtain ⟨-, hcond⟩ := hd
  simp only [Bool.and_eq_true, Bool.or_eq_true, beq_iff_eq,
    String.isEmpty_iff] at hcond
  obtain ⟨⟨h1, h2⟩, h3⟩ := hcond
  exact ⟨h1.resolve_left hv, h2.resolve_left hp, h3.resolve_left hs⟩

/-- C9 (amended): a device matches a serial-carrying USB URL only if its
vendor id, product id and serial all equal the parsed components; when
nothing matches, `device_url_to_usb_device` raises the plain base
`BrotherQLError` ("Cannot find printer"), not the `UnknownId` subclass;
when exactly one enumerated device matches, its handle is returned — in
particular for `usb://0x04f9:0x20c0` against a single QL-600-like
device. -/
theorem claim_C9_usb_serial_matching :
    (∀ (url v p s : String) (devs : List DeviceInfo) (d : DeviceInfo),
      parse_device_url url = some (v, p, some s) →
      d ∈ matchDeviceInfos v p (some s) devs →
      d.usb_vendor_id = v ∧ d.usb_product_id = p ∧ d.serial = s)
    ∧ (∀ (url v p : String) (ser : Option String) (devs : List DeviceInfo),
      parse_device_url url = some (v, p, ser) →
      matchDeviceInfos v p ser devs = [] →
      device_url_to_usb_device url devs
        = Except.error (UsbResolveErr.raised ExcClass.BrotherQLError))
    ∧ (∀ (url v p : String) (ser : Option String) (devs : List DeviceInfo)
        (d : DeviceInfo) (h : ℕ),
      parse_device_url url = some (v, p, ser) →
      matchDeviceInfos v p ser devs = [d] → d.handle = some h →
      device_url_to_usb_device url devs = Except.ok h)
    ∧ device_url_to_usb_device "usb://0x04f9:0x20c0"
        [{ usb_vendor_id := "04f9", usb_product_id := "20c0",
           serial := "000M6Z401370", handle := some 1 }]
      = Except.ok 1 := by
  refine ⟨?_, ?_, ?_, rfl⟩
  · intro url v p s devs d hparse hd
    obtain ⟨hv, hp, hs⟩ := parse_components url v p (some s) hparse
    exact match_requires v p s devs d hv hp (hs s rfl) hd
  · intro url v p ser devs hparse hempty
    simp [device_url_to_usb_device, device_url_to_device_infos, hparse,
      hempty, pickPrinter]
  · intro url v p ser devs d h hparse hone hh
    simp [device_url_to_usb_device, device_url_to_device_infos, hparse,
      hone, pickPrinter, hh]

/-- Counterexample for C9 as stated: the wrong-serial URL of scenario S5
fails with the base `BrotherQLError` class, which is not the
`BrotherQLUnknownId` subclass. -/
theorem counterexample_C9_wrong_serial_error_class :
    device_url_to_usb_device "usb://0x04f9:0x20c0/WRONGSERIAL"
      [{ usb_vendor_id := "04f9", usb_product_id := "20c0",
         serial := "000M6Z401370", handle := some 1 }]
      = Except.error (UsbResolveErr.raised ExcClass.BrotherQLError)
    ∧ ExcClass.BrotherQLError ≠ ExcClass.BrotherQLUnknownId :=
  ⟨rfl, by decide⟩

/-- Witness for C9 at a concrete input: the device surviving the filter
for the right-serial URL carries exactly the parsed components. -/
theorem claim_C9_usb_serial_matching_witness :
    ({ usb_vendor_id := "04f9", usb_product_id := "20c0",
       serial := "000M6Z401370", handle := some 1 } : DeviceInfo).usb_vendor_id
        = "04f9"
    ∧ ({ usb_vendor_id := "04f9", usb_product_id := "20c0",
         serial := "000M6Z401370", handle := some 1 }
          : DeviceInfo).usb_product_id = "20c0"
    ∧ ({ usb_vendor_id := "04f9", usb_product_id := "20c0",
         serial := "000M6Z401370", handle := some 1 }
          : DeviceInfo).serial = "000M6Z401370" :=
  claim_C9_usb_serial_matching.1 "usb://0x04f9:0x20c0/000M6Z401370"
    "04f9" "20c0" "000M6Z401370"
    [{ usb_vendor_id := "04f9", usb_product_id := "20c0",
       serial := "000M6Z401370", handle := some 1 }] _ rfl (by decide)

/-! ## Theorems: `LabelMetadata.__bool__` (claim C10) -/

/-- `and` on two booleans is boolean conjunction. -/
theorem pyAnd_bools (a b : Bool) :
    pyAnd (PyVal.pybool a) (PyVal.pybool b) = PyVal.pybool (a && b) := by
  cases a <;> simp [pyAnd, PyVal.truthy]

/-- C10: when `image_filename` is the empty string (the default),
`LabelMetadata.__bool__` returns the empty string itself — the value of
the short-circuiting `and` chain — so taking the record's truth value
raises `TypeError`; the chain returns an actual bool exactly when
`image_filename` is non-empty. -/
theorem claim_C10_metadata_bool :
    (∀ (m : LabelMetadata) (fs : String → Bool), m.image_filename = "" →
      labelMetadataBool m fs = PyVal.pystr ""
        ∧ labelMetadataTruth m fs = Except.error PyExc.type_error)
    ∧ (∀ (m : LabelMetadata) (fs : String → Bool),
      (∃ b, labelMetadataBool m fs = PyVal.pybool b)
        ↔ m.image_filename ≠ "") := by
  have hkey : ∀ (m : LabelMetadata) (fs : String → Bool),
      m.image_filename = "" → labelMetadataBool m fs = PyVal.pystr "" := by
    intro m fs h
    simp [labelMetadataBool, pyAnd, PyVal.truthy, h]
  constructor
  · intro m fs h
    refine ⟨hkey m fs h, ?_⟩
    rw [labelMetadataTruth, hkey m fs h]
  · intro m fs
    constructor
    · rintro ⟨b, hb⟩ heq
      rw [hkey m fs heq] at hb
      cases hb
    · intro h
      have hf : PyVal.truthy (PyVal.pystr m.image_filename) = true := by
        simp [PyVal.truthy, h]
      simp only [labelMetadataBool]
      rw [show pyAnd (PyVal.pystr m.image_filename)
          (PyVal.pybool (decide (0 ≤ m.label_width_mm)))
        = PyVal.pybool (decide (0 ≤ m.label_width_mm)) by
        simp [pyAnd, hf]]
      rw [pyAnd_bools, pyAnd_bools, pyAnd_bools, pyAnd_bools]
      exact ⟨_, rfl⟩

/-- Witness for C10 at concrete inputs: the default record (empty image
filename) raises `TypeError`, and a record with a non-empty filename
produces an actual bool. -/
theorem claim_C10_metadata_bool_witness :
    labelMetadataTruth {} (fun _ => false) = Except.error PyExc.type_error
    ∧ ∃ b, labelMetadataBool { image_filename := "x" } (fun _ => false)
        = PyVal.pybool b :=
  ⟨(claim_C10_metadata_bool.1 {} (fun _ => false) rfl).2,
    (claim_C10_metadata_bool.2 { image_filename := "x" }
      (fun _ => false)).mpr (by decide)⟩

/-! ## Theorems: fuzzy identifier lookup (claim C4) -/

/-- An `ok` result of the `_fuzzy_match` loop is a haystack entry whose
normalized name equals the normalized needle. -/
theorem fuzzyMatchGo_ok {α : Type} (nn : String) :
    ∀ (pairs : List (String × α)) (dict : List (String × String)) (v : α),
      fuzzyMatchGo nn pairs dict = Except.ok v →
      ∃ p ∈ pairs, p.2 = v ∧ normalise p.1 = nn
  | [], dict, v => by
    intro h
    simp only [fuzzyMatchGo] at h
    split at h <;> cases h
  | (name, obj) :: rest, dict, v => by
    intro h
    simp only [fuzzyMatchGo] at h
    by_cases hn : normalise name = nn
    · rw [if_pos hn] at h
      cases h
      exact ⟨(name, obj), List.mem_cons_self _ _, rfl, hn⟩
    · rw [if_neg hn] at h
      obtain ⟨q, hq, h2, h3⟩ := fuzzyMatchGo_ok nn rest _ v h
      exact ⟨q, List.mem_cons_of_mem _ hq, h2, h3⟩

/-- When no entry's normalized name equals the normalized needle, the
`_fuzzy_match` loop raises an error. -/
theorem fuzzyMatchGo_err {α : Type} (nn : String) :
    ∀ (pairs : List (String × α)) (dict : List (String × String)),
      (∀ p ∈ pairs, normalise p.1 ≠ nn) →
      ∃ e, fuzzyMatchGo nn pairs dict = Except.error e
  | [], dict => by
    intro _
    simp only [fuzzyMatchGo]
    split <;> exact ⟨_, rfl⟩
  | (name, obj) :: rest, dict => by
    intro hno
    simp only [fuzzyMatchGo]
    rw [if_neg (hno (name, obj) (List.mem_cons_self _ _))]
    exact fuzzyMatchGo_err nn rest _
      fun q hq => hno q (List.mem_cons_of_mem _ hq)

/-- C4: fuzzy lookup compares normalized names (lower-cased, with
non-alphanumeric characters removed): a returned candidate always
normalizes to the normalized needle, absence of such a candidate raises
`UnknownId`; resolving `"ql600"` returns the QL-600 model, and resolving
`"QL-6000"` raises `UnknownId` whose close-match list — computed by the
`difflib.get_close_matches` model — contains `"QL-600"`. -/
theorem claim_C4_fuzzy_lookup :
    (∀ (α : Type) (needle : String) (pairs : List (String × α)) (v : α),
      fuzzy_match needle pairs = Except.ok v →
      ∃ p ∈ pairs, p.2 = v ∧ normalise p.1 = normalise needle)
    ∧ (∀ (α : Type) (needle : String) (pairs : List (String × α)),
      (∀ p ∈ pairs, normalise p.1 ≠ normalise needle) →
      ∃ e, fuzzy_match needle pairs = Except.error e)
    ∧ resolve_model "ql600" = Except.ok ql_600
    ∧ resolve_model "QL-6000"
        = Except.error
            (FuzzyError.unknown_id_close ["QL-600", "QL-700", "QL-800"])
    ∧ "QL-600" ∈ ["QL-600", "QL-700", "QL-800"] := by
  refine ⟨?_, ?_, rfl, rfl, by decide⟩
  · intro α needle pairs v h
    exact fuzzyMatchGo_ok (normalise needle) pairs [] v h
  · intro α needle pairs h
    exact fuzzyMatchGo_err (normalise needle) pairs [] h

/-- Witness for C4 at a concrete input: the entry returned for `"ql600"`
from a one-entry haystack normalizes to the needle. -/
theorem claim_C4_fuzzy_lookup_witness :
    ∃ p ∈ [("QL-600", (42 : ℕ))], p.2 = 42
      ∧ normalise p.1 = normalise "ql600" :=
  claim_C4_fuzzy_lookup.1 ℕ "ql600" [("QL-600", 42)] 42 rfl

end BrotherLabel
